import Mathlib

/-!
Shallow embedding of the workflow-orchestrator core (WorkflowContext,
Step, ErrorHandler, WorkflowOrchestrator) and proofs about its claims.

Modelling conventions:
* JS `Date` values are modelled by a monotone `Nat` clock threaded through
  the orchestrator state; each `new Date()` site reads and bumps the clock.
* JS `Map` (insertion-ordered, set-replaces-in-place) is modelled by an
  association list with `setA` / `getA`.
* Thrown exceptions are modelled by an `Option`/`Except` result paired with
  the state reached at the throw point.
* Host-environment metrics (memory, CPU) and logging are outside the model.
-/

/-- Opaque JS values stored in the context data map and step outputs. -/
inductive JVal where
  | bool : Bool → JVal
  | str : String → JVal
  | num : Nat → JVal
deriving DecidableEq, Repr

/-- `leadMatch pat l` is true when `pat` occurs at the head of `l`. -/
def leadMatch : List Char → List Char → Bool
  | [], _ => true
  | _ :: _, [] => false
  | a :: as, b :: bs => a == b && leadMatch as bs

/-- `hasSub pat l` is true when `pat` occurs contiguously inside `l`. -/
def hasSub (pat : List Char) : List Char → Bool
  | [] => leadMatch pat []
  | c :: cs => leadMatch pat (c :: cs) || hasSub pat cs

/-- JS `String.prototype.includes`: substring test on the message text. -/
def strIncludes (msg pat : String) : Bool :=
  hasSub pat.toList msg.toList

/-- Insertion-ordered map update (JS `Map.set`): replaces in place, else
appends at the end. -/
def setA {κ α : Type} [DecidableEq κ] (k : κ) (v : α) : List (κ × α) → List (κ × α)
  | [] => [(k, v)]
  | (k', v') :: rest => if k' = k then (k, v) :: rest else (k', v') :: setA k v rest

/-- Map lookup (JS `Map.get`). -/
def getA {κ α : Type} [DecidableEq κ] (k : κ) : List (κ × α) → Option α
  | [] => none
  | (k', v) :: rest => if k' = k then some v else getA k rest

/-- Error values as classified by the core: a message plus the structural
`ExecutionError` fields (`retryable`, `step`) used when
`error instanceof ExecutionError` holds. -/
structure Err where
  message : String
  isExecutionError : Bool
  retryable : Bool
  step : String
deriving DecidableEq, Repr

/-- Step / record lifecycle status. -/
inductive StepStatus where
  | PENDING | RUNNING | COMPLETED | FAILED
deriving DecidableEq, Repr

/-- The `StepOutput` record stored in `context.stepOutputs`. `duration` is
`none` until the orchestrator assigns it (the field is absent on the
freshly created RUNNING record). -/
structure StepOutput where
  status : StepStatus
  startTime : Option Nat
  endTime : Option Nat
  output : Option JVal
  error : Option Err
  duration : Option Nat
deriving DecidableEq, Repr

/-- `context.metadata`. -/
structure Metadata where
  workflowId : String
  startTime : Option Nat
  endTime : Option Nat
  totalSteps : Nat
  completedSteps : Nat
  failedSteps : Nat
deriving DecidableEq, Repr

/-- The shared mutable `WorkflowContext`. -/
structure WorkflowContext where
  data : List (String × JVal)
  metadata : Metadata
  stepOutputs : List (String × StepOutput)
  errors : List Err
deriving DecidableEq, Repr

/-- `new WorkflowContext(workflowId, totalSteps)`. -/
def WorkflowContext.init (workflowId : String) (totalSteps : Nat) : WorkflowContext :=
  { data := []
    metadata :=
      { workflowId := workflowId
        startTime := none
        endTime := none
        totalSteps := totalSteps
        completedSteps := 0
        failedSteps := 0 }
    stepOutputs := []
    errors := [] }

/-- `WorkflowContext.setData`. -/
def WorkflowContext.setData (key : String) (value : JVal) (ctx : WorkflowContext) :
    WorkflowContext :=
  { ctx with data := setA key value ctx.data }

/-- `WorkflowContext.getData` (absent key gives `none`). -/
def WorkflowContext.getData (key : String) (ctx : WorkflowContext) : Option JVal :=
  getA key ctx.data

/-- `WorkflowContext.setStepOutput`: merge when a record exists (only the
`output` field is replaced), otherwise create a success-by-default record.
`now` is the clock value at the call (the source reads `new Date()`). -/
def WorkflowContext.setStepOutput (now : Nat) (stepName : String) (output : JVal)
    (ctx : WorkflowContext) : WorkflowContext :=
  match getA stepName ctx.stepOutputs with
  | some currentOutput =>
      let merged := { currentOutput with output := some output }
      { ctx with stepOutputs := setA stepName merged ctx.stepOutputs }
  | none =>
      let created : StepOutput :=
        { status := .COMPLETED
          startTime := some now
          endTime := some now
          output := some output
          error := none
          duration := some 0 }
      { ctx with stepOutputs := setA stepName created ctx.stepOutputs }

/-- `WorkflowContext.getStepOutput`. -/
def WorkflowContext.getStepOutput (stepName : String) (ctx : WorkflowContext) :
    Option StepOutput :=
  getA stepName ctx.stepOutputs

/-- Error taxonomy produced by classification. -/
inductive ErrType where
  | EXECUTION | VALIDATION | TIMEOUT | NETWORK | UNKNOWN
deriving DecidableEq, Repr

/-- Error severity. -/
inductive Severity where
  | LOW | MEDIUM | HIGH
deriving DecidableEq, Repr

/-- `ErrorInfo` produced by `ErrorHandler.classifyError`. -/
structure ErrorInfo where
  type : ErrType
  severity : Severity
  retryable : Bool
  step : String
deriving DecidableEq, Repr

/-- Retry backoff strategy selector (delays are real-time suspensions with
no observable state effect, so only the selector is modelled). -/
inductive RetryStrategyKind where
  | exponential | linear | fixed
deriving DecidableEq, Repr

/-- `ErrorHandlingConfig`. -/
structure ErrorHandlingConfig where
  maxRetries : Nat
  retryStrategy : RetryStrategyKind
  fallbackEnabled : Bool
deriving DecidableEq, Repr

/-- `WorkflowConfig`. -/
structure WorkflowConfig where
  workflowId : String
  name : String
  errorHandling : ErrorHandlingConfig
deriving DecidableEq, Repr

/-- `ErrorHandler.classifyError`: the structurally-typed execution error
takes precedence, then the substring heuristics in source order. -/
def ErrorHandler.classifyError (error : Err) : ErrorInfo :=
  if error.isExecutionError then
    { type := .EXECUTION, severity := .MEDIUM, retryable := error.retryable
      step := error.step }
  else if strIncludes error.message "validation" then
    { type := .VALIDATION, severity := .HIGH, retryable := false, step := "VALIDATION" }
  else if strIncludes error.message "timeout" then
    { type := .TIMEOUT, severity := .MEDIUM, retryable := true, step := "TIMEOUT" }
  else if strIncludes error.message "network" then
    { type := .NETWORK, severity := .MEDIUM, retryable := true, step := "NETWORK" }
  else
    { type := .UNKNOWN, severity := .HIGH, retryable := false, step := "UNKNOWN" }

/-- `ErrorHandler.shouldRetry`. -/
def ErrorHandler.shouldRetry (config : ErrorHandlingConfig) (errorInfo : ErrorInfo) : Bool :=
  errorInfo.retryable && !(errorInfo.severity == .HIGH) && decide (0 < config.maxRetries)

/-- The mutable fields of a `Step` object (its definition-side behavior is
kept separately in `StepM`). -/
structure StepState where
  status : StepStatus
  startTime : Option Nat
  endTime : Option Nat
  error : Option Err
  output : Option JVal
  duration : Nat
deriving DecidableEq, Repr

/-- A freshly constructed step object. -/
def StepState.initial : StepState :=
  { status := .PENDING, startTime := none, endTime := none, error := none
    output := none, duration := 0 }

/-- A step definition: its name, static config, and the behavior of its
`execute` method, given as a function from the 0-based invocation count to
the result of that invocation (`.ok` = resolves, `.error` = throws). -/
structure StepM where
  name : String
  config : List (String × JVal)
  behavior : Nat → Except Err JVal

/-- Whole-system state threaded through a run: the shared context, each
step object's mutable state and invocation count (keyed by the step's
position in the pipeline), the `Date` clock, and the chronological list of
context snapshots taken after every state-changing operation (the
observation points). -/
structure World where
  ctx : WorkflowContext
  stepStates : List (Nat × StepState)
  invocations : List (Nat × Nat)
  clock : Nat
  trace : List WorkflowContext

/-- Read and advance the clock (`new Date()`). -/
def tick (w : World) : Nat × World :=
  (w.clock, { w with clock := w.clock + 1 })

/-- Record an observation point. -/
def snap (w : World) : World :=
  { w with trace := w.trace ++ [w.ctx] }

/-- Read and bump a step's invocation counter (one `step.execute` call). -/
def bumpInv (i : Nat) (w : World) : Nat × World :=
  let n := (getA i w.invocations).getD 0
  (n, { w with invocations := setA i (n + 1) w.invocations })

/-- `Step.handleError` (the spec's `recordFailure`): sets the step's
`error`/`status`/`endTime`, appends the error to `context.errors`, and
increments `metadata.failedSteps`. -/
def Step.handleError (e : Err) (i : Nat) (w : World) : World :=
  let p := tick w
  let t := p.1
  let w := p.2
  let st := ((getA i w.stepStates).getD StepState.initial)
  let st := { st with error := some e, status := .FAILED, endTime := some t }
  let w := { w with stepStates := setA i st w.stepStates }
  let md := { w.ctx.metadata with failedSteps := w.ctx.metadata.failedSteps + 1 }
  let w := { w with ctx :=
    { w.ctx with errors := w.ctx.errors ++ [e], metadata := md } }
  snap w

/-- `ErrorHandler.executeRetry`'s while loop, by remaining attempts
(`maxRetries - retryCount`). A `some e` second component is the re-raised
last error after all attempts failed. -/
def ErrorHandler.executeRetry (beh : Nat → Except Err JVal) (i : Nat) :
    Nat → World → World × Option Err
  | 0, w => (w, none)
  | r + 1, w =>
    let p := bumpInv i w
    let n := p.1
    let w := p.2
    match beh n with
    | .ok _ => (snap w, none)
    | .error e => if r = 0 then (snap w, some e) else ErrorHandler.executeRetry beh i r (snap w)

/-- `ErrorHandler.executeFallback`: side effects keyed by the classified
type; never raises. -/
def ErrorHandler.executeFallback (errorInfo : ErrorInfo) (stepName : String) (w : World) :
    World :=
  match errorInfo.type with
  | .VALIDATION =>
      snap { w with ctx :=
        { w.ctx with data := setA (stepName ++ "_fallback") (.bool true) w.ctx.data } }
  | .NETWORK =>
      snap { w with ctx :=
        { w.ctx with data := setA (stepName ++ "_fallback") (.str "cached") w.ctx.data } }
  | _ => snap w

/-- `ErrorHandler.handleError`: classify, then retry or fallback. -/
def ErrorHandler.handleError (config : ErrorHandlingConfig) (s : StepM) (i : Nat)
    (e : Err) (w : World) : World × Option Err :=
  let errorInfo := ErrorHandler.classifyError e
  if ErrorHandler.shouldRetry config errorInfo then
    ErrorHandler.executeRetry s.behavior i config.maxRetries w
  else
    (ErrorHandler.executeFallback errorInfo s.name w, none)

/-- `WorkflowError` (workflow-level error carrying the failing step name). -/
structure WorkflowError where
  message : String
  step : String
deriving DecidableEq, Repr

/-- Inner-loop throw values: a `WorkflowError` raised by the orchestrator
itself, or a step/retry error escaping `ErrorHandler.handleError`. -/
inductive RunErr where
  | wf : WorkflowError → RunErr
  | ex : Err → RunErr
deriving DecidableEq, Repr

/-- `WorkflowOrchestrator.executeStep` for the step at position `i`:
mark RUNNING, create the record, invoke `execute`; on success update
status/output/record and increment `completedSteps`; on failure run
`Step.handleError`, update the record, then delegate to the ErrorHandler.
A `some e` second component is an error escaping the ErrorHandler. -/
def WorkflowOrchestrator.executeStep (config : ErrorHandlingConfig) (i : Nat) (s : StepM)
    (w : World) : World × Option Err :=
  let p := tick w
  let t1 := p.1
  let w := p.2
  let st0 := (getA i w.stepStates).getD StepState.initial
  let st1 := { st0 with status := StepStatus.RUNNING, startTime := some t1 }
  let w := { w with stepStates := setA i st1 w.stepStates }
  let rec0 : StepOutput :=
    { status := .RUNNING, startTime := some t1, endTime := none, output := none
      error := none, duration := none }
  let w := { w with ctx :=
    { w.ctx with stepOutputs := setA s.name rec0 w.ctx.stepOutputs } }
  let w := snap w
  let q := bumpInv i w
  let n := q.1
  let w := q.2
  match s.behavior n with
  | .ok v =>
      let p2 := tick w
      let t2 := p2.1
      let w := p2.2
      let st2 := { st1 with status := StepStatus.COMPLETED, endTime := some t2,
                             output := some v, duration := t2 - t1 }
      let w := { w with stepStates := setA i st2 w.stepStates }
      let rec1 := { rec0 with status := StepStatus.COMPLETED, endTime := some t2,
                              output := some v, duration := some (t2 - t1) }
      let md := { w.ctx.metadata with completedSteps := w.ctx.metadata.completedSteps + 1 }
      let w := { w with ctx :=
        { w.ctx with stepOutputs := setA s.name rec1 w.ctx.stepOutputs, metadata := md } }
      (snap w, none)
  | .error e =>
      let w := Step.handleError e i w
      let stF := (getA i w.stepStates).getD StepState.initial
      let dur := match stF.endTime with
        | some t => t - t1
        | none => 0
      let recF := { rec0 with status := StepStatus.FAILED, endTime := stF.endTime,
                              error := stF.error, duration := some dur }
      let w := { w with ctx :=
        { w.ctx with stepOutputs := setA s.name recF w.ctx.stepOutputs } }
      let w := snap w
      ErrorHandler.handleError config s i e w

/-- `WorkflowOrchestrator.validateWorkflow`: length-only configuration
checks, raising a workflow-level configuration error. -/
def WorkflowOrchestrator.validateWorkflow (steps : List StepM) : Option WorkflowError :=
  if steps.length = 0 then
    some { message := "No steps configured for workflow", step := "WORKFLOW" }
  else if steps.length < 3 then
    some { message := "Workflow must have at least 3 steps", step := "WORKFLOW" }
  else
    none

/-- The `for` loop of `WorkflowOrchestrator.execute` with the post-step
abort check, over the steps from position `i` on. -/
def WorkflowOrchestrator.execLoop (config : ErrorHandlingConfig) :
    Nat → List StepM → World → World × Option RunErr
  | _, [], w => (w, none)
  | i, s :: rest, w =>
    let q := WorkflowOrchestrator.executeStep config i s w
    match q.2 with
    | some e => (q.1, some (RunErr.ex e))
    | none =>
      let st := (getA i q.1.stepStates).getD StepState.initial
      if st.status == StepStatus.FAILED && !config.fallbackEnabled then
        (q.1, some (RunErr.wf
          { message := "Workflow failed at step: " ++ s.name, step := s.name }))
      else
        WorkflowOrchestrator.execLoop config (i + 1) rest q.1

/-- One per-step summary row of the execution report. -/
structure StepExecutionSummary where
  name : String
  status : StepStatus
  startTime : Option Nat
  endTime : Option Nat
  duration : Nat
  error : Option String
deriving DecidableEq, Repr

/-- One error summary row of the execution report. -/
structure ErrorSummary where
  step : String
  message : String
  etype : String
deriving DecidableEq, Repr

/-- The report's aggregate summary. -/
structure ReportSummary where
  totalSteps : Nat
  completedSteps : Nat
  failedSteps : Nat
  successRate : ℚ
deriving DecidableEq, Repr

/-- `ExecutionReport` (host-environment performance metrics omitted). -/
structure ExecutionReport where
  workflowId : String
  status : StepStatus
  startTime : Nat
  endTime : Nat
  duration : Nat
  steps : List StepExecutionSummary
  summary : ReportSummary
  errors : List ErrorSummary
deriving DecidableEq, Repr

/-- `WorkflowOrchestrator.generateExecutionReport`. The source dereferences
`metadata.startTime!` / `metadata.endTime!`; a `none` result models the
runtime `TypeError` raised when either timestamp is still null. -/
def WorkflowOrchestrator.generateExecutionReport (workflowId : String)
    (ctx : WorkflowContext) : Option ExecutionReport :=
  match ctx.metadata.startTime, ctx.metadata.endTime with
  | some st, some en =>
    let duration := en - st
    let stepRows := ctx.stepOutputs.map (fun p =>
      { name := p.1
        status := if p.2.status == StepStatus.COMPLETED
                  then StepStatus.COMPLETED else StepStatus.FAILED
        startTime := p.2.startTime
        endTime := p.2.endTime
        duration := p.2.duration.getD 0
        error := p.2.error.map (fun e => e.message) : StepExecutionSummary })
    let errRows := ctx.errors.map (fun e =>
      { step := "UNKNOWN"
        message := e.message
        etype := if e.isExecutionError then "ExecutionError" else "Error" : ErrorSummary })
    some
      { workflowId := workflowId
        status := if ctx.metadata.failedSteps = 0
                  then StepStatus.COMPLETED else StepStatus.FAILED
        startTime := st
        endTime := en
        duration := duration
        steps := stepRows
        summary :=
          { totalSteps := ctx.metadata.totalSteps
            completedSteps := ctx.metadata.completedSteps
            failedSteps := ctx.metadata.failedSteps
            successRate :=
              (ctx.metadata.completedSteps : ℚ) / (ctx.metadata.totalSteps : ℚ) * 100 }
        errors := errRows }
  | _, _ => none

/-- `WorkflowOrchestrator.getExecutionReport` (public accessor). -/
def WorkflowOrchestrator.getExecutionReport (workflowId : String) (ctx : WorkflowContext) :
    Option ExecutionReport :=
  WorkflowOrchestrator.generateExecutionReport workflowId ctx

/-- Orchestrator construction: `new WorkflowOrchestrator(config)` with a
fresh context. -/
def WorkflowOrchestrator.emptyWorld (workflowId : String) : World :=
  { ctx := WorkflowContext.init workflowId 0
    stepStates := []
    invocations := []
    clock := 0
    trace := [] }

/-- `WorkflowOrchestrator.addStep`: pushes a step object and refreshes
`metadata.totalSteps` to the current pipeline length. -/
def WorkflowOrchestrator.addStep (w : World) : World :=
  let i := w.stepStates.length
  let md := { w.ctx.metadata with totalSteps := i + 1 }
  snap { w with stepStates := w.stepStates ++ [(i, StepState.initial)],
                ctx := { w.ctx with metadata := md } }

/-- Fold of `addStep` over a pipeline. -/
def WorkflowOrchestrator.addSteps (steps : List StepM) (w : World) : World :=
  steps.foldl (fun a _ => WorkflowOrchestrator.addStep a) w

/-- The state after constructing the orchestrator and adding every step. -/
def WorkflowOrchestrator.initWorld (workflowId : String) (steps : List StepM) : World :=
  WorkflowOrchestrator.addSteps steps (WorkflowOrchestrator.emptyWorld workflowId)

/-- The start of `execute()`: `metadata.startTime = new Date()`. -/
def WorkflowOrchestrator.startRun (w : World) : World :=
  let p := tick w
  snap { p.2 with ctx :=
    { p.2.ctx with metadata := { p.2.ctx.metadata with startTime := some p.1 } } }

/-- The end of `execute()` on every path: `metadata.endTime = new Date()`. -/
def WorkflowOrchestrator.finishRun (w : World) : World :=
  let p := tick w
  snap { p.2 with ctx :=
    { p.2.ctx with metadata := { p.2.ctx.metadata with endTime := some p.1 } } }

/-- `WorkflowOrchestrator.execute`: set `startTime`, validate, run the loop,
set `endTime`, and either return the report or re-raise: a `WorkflowError`
as-is, anything else wrapped as an unexpected workflow error. -/
def WorkflowOrchestrator.execute (config : WorkflowConfig) (steps : List StepM)
    (w : World) : World × Except WorkflowError ExecutionReport :=
  let w := WorkflowOrchestrator.startRun w
  match WorkflowOrchestrator.validateWorkflow steps with
  | some werr => (WorkflowOrchestrator.finishRun w, .error werr)
  | none =>
    let q := WorkflowOrchestrator.execLoop config.errorHandling 0 steps w
    let w := WorkflowOrchestrator.finishRun q.1
    match q.2 with
    | some (RunErr.wf werr) => (w, .error werr)
    | some (RunErr.ex e) =>
        (w, .error
          { message := "Unexpected workflow error: " ++ e.message, step := "WORKFLOW" })
    | none =>
        match WorkflowOrchestrator.generateExecutionReport config.workflowId w.ctx with
        | some rep => (w, .ok rep)
        | none => (w, .error
            { message := "Unexpected workflow error: TypeError", step := "WORKFLOW" })

/-- A complete run: construct the orchestrator, add the steps, execute. -/
def runWorkflow (config : WorkflowConfig) (steps : List StepM) :
    World × Except WorkflowError ExecutionReport :=
  WorkflowOrchestrator.execute config steps
    (WorkflowOrchestrator.initWorld config.workflowId steps)

/-! ### Test fixtures (concrete steps, configs and pipelines) -/

/-- A plain error whose message matches the "network" heuristic. -/
def netErr : Err :=
  { message := "network down", isExecutionError := false, retryable := false, step := "" }

/-- A step whose `execute` always resolves with `v`. -/
def okStep (n : String) (v : JVal) : StepM :=
  { name := n, config := [], behavior := fun _ => .ok v }

/-- A step whose `execute` always throws `e`. -/
def failStep (n : String) (e : Err) : StepM :=
  { name := n, config := [], behavior := fun _ => .error e }

/-- A step whose `execute` throws `e` on its first invocation and resolves
with `v` on every later one. -/
def flakyStep (n : String) (e : Err) (v : JVal) : StepM :=
  { name := n, config := [], behavior := fun k => if k = 0 then .error e else .ok v }

/-- maxRetries 1, fallback enabled. -/
def cfgRetry1FbOn : WorkflowConfig := ⟨"w", "wf", ⟨1, .exponential, true⟩⟩

/-- maxRetries 1, fallback disabled. -/
def cfgRetry1FbOff : WorkflowConfig := ⟨"w", "wf", ⟨1, .exponential, false⟩⟩

/-- maxRetries 2, fallback disabled. -/
def cfgRetry2FbOff : WorkflowConfig := ⟨"w", "wf", ⟨2, .exponential, false⟩⟩

/-- Three steps that all succeed. -/
def stepsAllOk : List StepM :=
  [okStep "A" (.num 1), okStep "B" (.num 2), okStep "C" (.num 3)]

/-- Step B always fails with a retryable-classified network error. -/
def stepsBFails : List StepM :=
  [okStep "A" (.num 1), failStep "B" netErr, okStep "C" (.num 3)]

/-- Step A fails once with a network error, then succeeds. -/
def stepsAFlaky : List StepM :=
  [flakyStep "A" netErr (.num 1), okStep "B" (.num 2), okStep "C" (.num 3)]

/-! ### Association-map lemmas -/

lemma getA_setA_self {κ α : Type} [DecidableEq κ] (k : κ) (v : α) (l : List (κ × α)) :
    getA k (setA k v l) = some v := by
  induction l with
  | nil => simp [getA, setA]
  | cons p rest ih =>
      by_cases h : p.1 = k
      · simp [getA, setA, h]
      · simp [getA, setA, h, ih]

lemma getA_setA_ne {κ α : Type} [DecidableEq κ] {k k' : κ} (h : k' ≠ k) (v : α)
    (l : List (κ × α)) : getA k' (setA k v l) = getA k' l := by
  induction l with
  | nil => simp [getA, setA, Ne.symm h]
  | cons p rest ih =>
      by_cases hp : p.1 = k
      · subst hp
        simp [getA, setA, Ne.symm h]
      · by_cases hp' : p.1 = k'
        · simp [getA, setA, hp, hp', h]
        · simp [getA, setA, hp, hp', ih]

/-! ### Claim C6 — error classification -/

/-- C6: classification returns EXECUTION/MEDIUM with the error's own
retryable flag for structurally-typed execution errors; otherwise it falls
through the substring heuristics in order: "validation" →
VALIDATION/HIGH/non-retryable, "timeout" → TIMEOUT/MEDIUM/retryable,
"network" → NETWORK/MEDIUM/retryable, else UNKNOWN/HIGH/non-retryable.
The typed check takes precedence (first conjunct has no message
hypothesis) and each later heuristic applies only when all earlier ones
miss. -/
theorem claim_C6_classification (e : Err) :
    (e.isExecutionError = true →
      ErrorHandler.classifyError e =
        { type := .EXECUTION, severity := .MEDIUM, retryable := e.retryable
          step := e.step }) ∧
    (e.isExecutionError = false → strIncludes e.message "validation" = true →
      ErrorHandler.classifyError e =
        { type := .VALIDATION, severity := .HIGH, retryable := false
          step := "VALIDATION" }) ∧
    (e.isExecutionError = false → strIncludes e.message "validation" = false →
      strIncludes e.message "timeout" = true →
      ErrorHandler.classifyError e =
        { type := .TIMEOUT, severity := .MEDIUM, retryable := true, step := "TIMEOUT" }) ∧
    (e.isExecutionError = false → strIncludes e.message "validation" = false →
      strIncludes e.message "timeout" = false → strIncludes e.message "network" = true →
      ErrorHandler.classifyError e =
        { type := .NETWORK, severity := .MEDIUM, retryable := true, step := "NETWORK" }) ∧
    (e.isExecutionError = false → strIncludes e.message "validation" = false →
      strIncludes e.message "timeout" = false → strIncludes e.message "network" = false →
      ErrorHandler.classifyError e =
        { type := .UNKNOWN, severity := .HIGH, retryable := false, step := "UNKNOWN" }) := by
  refine ⟨?_, ?_, ?_, ?_, ?_⟩ <;>
    · intros
      simp [ErrorHandler.classifyError, *]

/-- C6 witness: a message matching both "validation" and "timeout" on a
non-typed error is classified VALIDATION (the first heuristic in order). -/
theorem claim_C6_classification_witness :
    ErrorHandler.classifyError
        { message := "validation timeout", isExecutionError := false
          retryable := true, step := "s" } =
      { type := .VALIDATION, severity := .HIGH, retryable := false
        step := "VALIDATION" } :=
  (claim_C6_classification _).2.1 rfl (by decide)

/-! ### Claim C7 — setStepOutput merge semantics -/

/-- C7: when a record already exists for the name, `setStepOutput` replaces
only its `output` field (all other fields of the looked-up record are kept);
when none exists, it creates a record with status COMPLETED, both
timestamps set to the current clock, the given output, no error, and
duration 0. Records under other names are untouched. -/
theorem claim_C7_setStepOutput (now : Nat) (stepName : String) (v : JVal)
    (ctx : WorkflowContext) :
    (∀ r, getA stepName ctx.stepOutputs = some r →
      WorkflowContext.getStepOutput stepName
          (WorkflowContext.setStepOutput now stepName v ctx) =
        some { r with output := some v }) ∧
    (getA stepName ctx.stepOutputs = none →
      WorkflowContext.getStepOutput stepName
          (WorkflowContext.setStepOutput now stepName v ctx) =
        some { status := .COMPLETED, startTime := some now, endTime := some now
               output := some v, error := none, duration := some 0 }) ∧
    (∀ n', n' ≠ stepName →
      WorkflowContext.getStepOutput n' (WorkflowContext.setStepOutput now stepName v ctx) =
        WorkflowContext.getStepOutput n' ctx) := by
  refine ⟨?_, ?_, ?_⟩
  · intro r hr
    simp [WorkflowContext.setStepOutput, WorkflowContext.getStepOutput, hr, getA_setA_self]
  · intro hr
    simp [WorkflowContext.setStepOutput, WorkflowContext.getStepOutput, hr, getA_setA_self]
  · intro n' hn
    cases hx : getA stepName ctx.stepOutputs <;>
      simp [WorkflowContext.setStepOutput, WorkflowContext.getStepOutput, hx,
            getA_setA_ne hn]

/-- C7 witness: on a context where "A" already has a RUNNING record with
startTime 5, a second `setStepOutput` keeps status/startTime and replaces
only the output. -/
theorem claim_C7_setStepOutput_witness :
    WorkflowContext.getStepOutput "A"
        (WorkflowContext.setStepOutput 9 "A" (.num 2)
          { data := [], metadata := (WorkflowContext.init "w" 1).metadata
            stepOutputs := [("A",
              { status := .RUNNING, startTime := some 5, endTime := none
                output := some (.num 1), error := none, duration := none })]
            errors := [] }) =
      some { status := .RUNNING, startTime := some 5, endTime := none
             output := some (.num 2), error := none, duration := none } :=
  (claim_C7_setStepOutput 9 "A" (.num 2) _).1
    { status := .RUNNING, startTime := some 5, endTime := none
      output := some (.num 1), error := none, duration := none } (by decide)

/-! ### addStep / initWorld structure lemmas -/

lemma addSteps_spec (steps : List StepM) (w : World)
    (h : w.ctx.metadata.totalSteps = w.stepStates.length) :
    (WorkflowOrchestrator.addSteps steps w).ctx.metadata.startTime =
      w.ctx.metadata.startTime ∧
    (WorkflowOrchestrator.addSteps steps w).ctx.metadata.endTime =
      w.ctx.metadata.endTime ∧
    (WorkflowOrchestrator.addSteps steps w).ctx.metadata.completedSteps =
      w.ctx.metadata.completedSteps ∧
    (WorkflowOrchestrator.addSteps steps w).ctx.metadata.failedSteps =
      w.ctx.metadata.failedSteps ∧
    (WorkflowOrchestrator.addSteps steps w).ctx.metadata.totalSteps =
      w.stepStates.length + steps.length ∧
    (WorkflowOrchestrator.addSteps steps w).stepStates.length =
      w.stepStates.length + steps.length ∧
    (WorkflowOrchestrator.addSteps steps w).ctx.data = w.ctx.data ∧
    (WorkflowOrchestrator.addSteps steps w).ctx.stepOutputs = w.ctx.stepOutputs ∧
    (WorkflowOrchestrator.addSteps steps w).ctx.errors = w.ctx.errors ∧
    (WorkflowOrchestrator.addSteps steps w).invocations = w.invocations ∧
    (∀ c ∈ (WorkflowOrchestrator.addSteps steps w).trace, c ∈ w.trace ∨
      (c.metadata.completedSteps = w.ctx.metadata.completedSteps ∧
       c.metadata.failedSteps = w.ctx.metadata.failedSteps ∧
       c.metadata.endTime = w.ctx.metadata.endTime)) := by
  induction steps generalizing w with
  | nil =>
      refine ⟨rfl, rfl, rfl, rfl, ?_, rfl, rfl, rfl, rfl, rfl, ?_⟩
      · simpa [WorkflowOrchestrator.addSteps] using h
      · intro c hc
        exact Or.inl hc
  | cons s rest ih =>
      have h1 : (WorkflowOrchestrator.addStep w).ctx.metadata.totalSteps =
          (WorkflowOrchestrator.addStep w).stepStates.length := by
        simp [WorkflowOrchestrator.addStep, snap]
      have hstep : WorkflowOrchestrator.addSteps (s :: rest) w =
          WorkflowOrchestrator.addSteps rest (WorkflowOrchestrator.addStep w) := by
        simp [WorkflowOrchestrator.addSteps]
      obtain ⟨a1, a2, a3, a4, a5, a6, a7, a8, a9, a10, a11⟩ :=
        ih (WorkflowOrchestrator.addStep w) h1
      rw [hstep]
      have hlen : (WorkflowOrchestrator.addStep w).stepStates.length =
          w.stepStates.length + 1 := by
        simp [WorkflowOrchestrator.addStep, snap]
      refine ⟨?_, ?_, ?_, ?_, ?_, ?_, ?_, ?_, ?_, ?_, ?_⟩
      · rw [a1]; simp [WorkflowOrchestrator.addStep, snap]
      · rw [a2]; simp [WorkflowOrchestrator.addStep, snap]
      · rw [a3]; simp [WorkflowOrchestrator.addStep, snap]
      · rw [a4]; simp [WorkflowOrchestrator.addStep, snap]
      · rw [a5, hlen]; simp [List.length_cons]; ring
      · rw [a6, hlen]; simp [List.length_cons]; ring
      · rw [a7]; simp [WorkflowOrchestrator.addStep, snap]
      · rw [a8]; simp [WorkflowOrchestrator.addStep, snap]
      · rw [a9]; simp [WorkflowOrchestrator.addStep, snap]
      · rw [a10]; simp [WorkflowOrchestrator.addStep, snap]
      · intro c hc
        rcases a11 c hc with hold | hnew
        · have htr : (WorkflowOrchestrator.addStep w).trace =
              w.trace ++ [{ w.ctx with metadata :=
                { w.ctx.metadata with totalSteps := w.stepStates.length + 1 } }] := by
            simp [WorkflowOrchestrator.addStep, snap]
          rw [htr] at hold
          rcases List.mem_append.mp hold with hl | hr
          · exact Or.inl hl
          · have hc' := List.mem_singleton.mp hr
            subst hc'
            exact Or.inr ⟨rfl, rfl, rfl⟩
        · refine Or.inr ?_
          have b1 : (WorkflowOrchestrator.addStep w).ctx.metadata.completedSteps =
              w.ctx.metadata.completedSteps := by
            simp [WorkflowOrchestrator.addStep, snap]
          have b2 : (WorkflowOrchestrator.addStep w).ctx.metadata.failedSteps =
              w.ctx.metadata.failedSteps := by
            simp [WorkflowOrchestrator.addStep, snap]
          have b3 : (WorkflowOrchestrator.addStep w).ctx.metadata.endTime =
              w.ctx.metadata.endTime := by
            simp [WorkflowOrchestrator.addStep, snap]
          exact ⟨by rw [hnew.1, b1], by rw [hnew.2.1, b2], by rw [hnew.2.2, b3]⟩

/-! ### Claim C10 — report generation needs both timestamps -/

/-- C10: `getExecutionReport` is undefined (models the runtime `TypeError`
from the non-null assertions on `startTime!`/`endTime!`) whenever either
timestamp is still null; in particular it fails on any orchestrator that
has added steps but not yet run `execute()`. -/
theorem claim_C10_report_needs_run :
    (∀ (workflowId : String) (c : WorkflowContext),
      c.metadata.startTime = none ∨ c.metadata.endTime = none →
      WorkflowOrchestrator.getExecutionReport workflowId c = none) ∧
    (∀ (workflowId : String) (steps : List StepM),
      WorkflowOrchestrator.getExecutionReport workflowId
        (WorkflowOrchestrator.initWorld workflowId steps).ctx = none) := by
  have hbase : ∀ (workflowId : String) (c : WorkflowContext),
      c.metadata.startTime = none ∨ c.metadata.endTime = none →
      WorkflowOrchestrator.getExecutionReport workflowId c = none := by
    intro wid c h
    rcases h with h | h <;>
      simp [WorkflowOrchestrator.getExecutionReport,
            WorkflowOrchestrator.generateExecutionReport, h]
  refine ⟨hbase, ?_⟩
  intro wid steps
  have hinit := addSteps_spec steps (WorkflowOrchestrator.emptyWorld wid) rfl
  exact hbase wid _ (Or.inl hinit.1)

/-- C10 witness: on a freshly built pipeline of three steps with no
`execute()` call, `getExecutionReport` fails. -/
theorem claim_C10_report_needs_run_witness :
    WorkflowOrchestrator.getExecutionReport "w"
      (WorkflowOrchestrator.initWorld "w" stepsAllOk).ctx = none :=
  claim_C10_report_needs_run.2 "w" stepsAllOk

/-! ### Claim C9 — report status and success rate -/

/-- The report produced by the 3-step all-success run. -/
def repAllOk : ExecutionReport :=
  { workflowId := "w", status := .COMPLETED, startTime := 0, endTime := 7, duration := 7
    steps :=
      [{ name := "A", status := .COMPLETED, startTime := some 1, endTime := some 2
         duration := 1, error := none },
       { name := "B", status := .COMPLETED, startTime := some 3, endTime := some 4
         duration := 1, error := none },
       { name := "C", status := .COMPLETED, startTime := some 5, endTime := some 6
         duration := 1, error := none }]
    summary := { totalSteps := 3, completedSteps := 3, failedSteps := 0
                 successRate := ((3 : Nat) : ℚ) / ((3 : Nat) : ℚ) * 100 }
    errors := [] }

/-- A context with both timestamps set, 2 of 2 steps completed, no failures. -/
def ctx9 : WorkflowContext :=
  { data := [], metadata := ⟨"w", some 0, some 5, 2, 2, 0⟩, stepOutputs := [], errors := [] }

/-- The report generated from `ctx9`. -/
def rep9 : ExecutionReport :=
  { workflowId := "w", status := .COMPLETED, startTime := 0, endTime := 5, duration := 5
    steps := []
    summary := { totalSteps := 2, completedSteps := 2, failedSteps := 0
                 successRate := ((2 : Nat) : ℚ) / ((2 : Nat) : ℚ) * 100 }
    errors := [] }

/-- C9: any generated report has overall status COMPLETED iff
`metadata.failedSteps = 0` (else FAILED) and success rate
`completedSteps / totalSteps * 100`; a 3-step all-success run reports
3/3/0, rate 100, status COMPLETED. -/
theorem claim_C9_report_status (workflowId : String) (c : WorkflowContext)
    (rep : ExecutionReport)
    (h : WorkflowOrchestrator.generateExecutionReport workflowId c = some rep) :
    ((rep.status = StepStatus.COMPLETED ↔ c.metadata.failedSteps = 0) ∧
      rep.summary.successRate =
        (c.metadata.completedSteps : ℚ) / (c.metadata.totalSteps : ℚ) * 100) ∧
    (∃ r, (runWorkflow cfgRetry1FbOn stepsAllOk).2 = .ok r ∧
      r.summary.totalSteps = 3 ∧ r.summary.completedSteps = 3 ∧
      r.summary.failedSteps = 0 ∧ r.summary.successRate = 100 ∧
      r.status = StepStatus.COMPLETED) := by
  constructor
  · cases hst : c.metadata.startTime with
    | none => simp [WorkflowOrchestrator.generateExecutionReport, hst] at h
    | some st =>
      cases hen : c.metadata.endTime with
      | none => simp [WorkflowOrchestrator.generateExecutionReport, hst, hen] at h
      | some en =>
        simp [WorkflowOrchestrator.generateExecutionReport, hst, hen] at h
        subst h
        constructor
        · by_cases hf : c.metadata.failedSteps = 0 <;> simp [hf]
        · rfl
  · exact ⟨repAllOk, by rfl, by rfl, by rfl, by rfl, by norm_num [repAllOk], by rfl⟩

/-- C9 witness: a context with both timestamps set, 2 of 2 steps completed
and no failures yields status COMPLETED and rate 100. -/
theorem claim_C9_report_status_witness :
    ((rep9.status = StepStatus.COMPLETED ↔ ctx9.metadata.failedSteps = 0) ∧
      rep9.summary.successRate =
        (ctx9.metadata.completedSteps : ℚ) / (ctx9.metadata.totalSteps : ℚ) * 100) ∧
    (∃ r, (runWorkflow cfgRetry1FbOn stepsAllOk).2 = .ok r ∧
      r.summary.totalSteps = 3 ∧ r.summary.completedSteps = 3 ∧
      r.summary.failedSteps = 0 ∧ r.summary.successRate = 100 ∧
      r.status = StepStatus.COMPLETED) :=
  claim_C9_report_status "w" ctx9 rep9 (by rfl)

/-! ### Claim C5 — minimum pipeline length validation -/

/-- C5: a pipeline that is empty or shorter than 3 steps makes `execute()`
fail with the corresponding configuration error before any step's
`execute` is invoked (the invocation map stays empty); moreover,
validation depends only on the number of steps — step configs are never
inspected, so no static step configuration can be rejected. -/
theorem claim_C5_minimum_pipeline :
    (∀ (config : WorkflowConfig) (steps : List StepM), steps.length < 3 →
      (runWorkflow config steps).2 = .error
        (if steps.length = 0
         then { message := "No steps configured for workflow", step := "WORKFLOW" }
         else { message := "Workflow must have at least 3 steps", step := "WORKFLOW" }) ∧
      (runWorkflow config steps).1.invocations = []) ∧
    (∀ s1 s2 : List StepM, s1.length = s2.length →
      WorkflowOrchestrator.validateWorkflow s1 = WorkflowOrchestrator.validateWorkflow s2) := by
  constructor
  · intro config steps h
    have hv : WorkflowOrchestrator.validateWorkflow steps = some
        (if steps.length = 0
         then { message := "No steps configured for workflow", step := "WORKFLOW" }
         else { message := "Workflow must have at least 3 steps", step := "WORKFLOW" }) := by
      by_cases h0 : steps.length = 0
      · simp [WorkflowOrchestrator.validateWorkflow, h0]
      · simp [WorkflowOrchestrator.validateWorkflow, h0, h]
    have hinv := (addSteps_spec steps
      (WorkflowOrchestrator.emptyWorld config.workflowId) rfl).2.2.2.2.2.2.2.2.2.1
    constructor
    · simp [runWorkflow, WorkflowOrchestrator.execute, WorkflowOrchestrator.initWorld, hv]
    · simp [runWorkflow, WorkflowOrchestrator.execute, WorkflowOrchestrator.initWorld, hv,
            snap, tick]
      simpa [WorkflowOrchestrator.initWorld, WorkflowOrchestrator.emptyWorld] using hinv
  · intro s1 s2 h
    unfold WorkflowOrchestrator.validateWorkflow
    rw [h]

/-- C5 witness: a 1-step pipeline fails with the minimum-length
configuration error and its step is never invoked. -/
theorem claim_C5_minimum_pipeline_witness :
    (runWorkflow cfgRetry1FbOn [okStep "A" (.num 1)]).2 = .error
      { message := "Workflow must have at least 3 steps", step := "WORKFLOW" } ∧
    (runWorkflow cfgRetry1FbOn [okStep "A" (.num 1)]).1.invocations = [] := by
  have h := claim_C5_minimum_pipeline.1 cfgRetry1FbOn [okStep "A" (.num 1)] (by decide)
  simpa using h

/-- maxRetries 2, fallback enabled. -/
def cfgRetry2FbOn : WorkflowConfig := ⟨"w", "wf", ⟨2, .exponential, true⟩⟩

/-! ### Retry-loop frame lemmas -/

lemma executeRetry_world (beh : Nat → Except Err JVal) (i : Nat) :
    ∀ (r : Nat) (w : World),
      ((ErrorHandler.executeRetry beh i r w).1).ctx = w.ctx ∧
      ((ErrorHandler.executeRetry beh i r w).1).stepStates = w.stepStates ∧
      ((ErrorHandler.executeRetry beh i r w).1).clock = w.clock ∧
      (∀ c ∈ ((ErrorHandler.executeRetry beh i r w).1).trace, c ∈ w.trace ∨ c = w.ctx) := by
  intro r
  induction r with
  | zero =>
      intro w
      refine ⟨rfl, rfl, rfl, ?_⟩
      intro c hc
      exact Or.inl hc
  | succ r ih =>
      intro w
      simp only [ErrorHandler.executeRetry]
      cases hb : beh ((bumpInv i w).1) with
      | ok v =>
          simp only [hb]
          refine ⟨rfl, rfl, rfl, ?_⟩
          intro c hc
          simp [snap, bumpInv] at hc
          rcases hc with hc | hc
          · exact Or.inl hc
          · exact Or.inr hc
      | error e =>
          simp only [hb]
          by_cases hr : r = 0
          · subst hr
            simp only [if_pos rfl]
            refine ⟨rfl, rfl, rfl, ?_⟩
            intro c hc
            simp [snap, bumpInv] at hc
            rcases hc with hc | hc
            · exact Or.inl hc
            · exact Or.inr hc
          · simp only [if_neg hr]
            obtain ⟨h1, h2, h3, h4⟩ := ih (snap (bumpInv i w).2)
            refine ⟨?_, ?_, ?_, ?_⟩
            · rw [h1]; rfl
            · rw [h2]; rfl
            · rw [h3]; rfl
            · intro c hc
              rcases h4 c hc with hc' | hc'
              · have htr : (snap (bumpInv i w).2).trace =
                    w.trace ++ [(bumpInv i w).2.ctx] := rfl
                rw [htr] at hc'
                rcases List.mem_append.mp hc' with hm | hm
                · exact Or.inl hm
                · exact Or.inr (List.mem_singleton.mp hm)
              · exact Or.inr hc'

lemma executeRetry_constFail (e : Err) (i : Nat) :
    ∀ (r : Nat), 0 < r → ∀ w,
      (ErrorHandler.executeRetry (fun _ => .error e) i r w).2 = some e := by
  intro r
  induction r with
  | zero => intro h; omega
  | succ r ih =>
      intro _ w
      simp only [ErrorHandler.executeRetry]
      by_cases hr : r = 0
      · subst hr
        simp
      · simp only [if_neg hr]
        exact ih (Nat.pos_of_ne_zero hr) _

/-! ### Claim C4 — failure recording vs. retry bookkeeping -/

/-- C4: `Step.handleError` immediately increments `failedSteps` and appends
the error to `context.errors` (leaving `completedSteps` alone); the retry
loop invokes the step's behavior directly and leaves the whole context —
counters, records, errors, data — unchanged no matter how it ends, so a
later retry success never decrements the counter nor removes the recorded
error; concretely, after a run whose first step fails once and then
succeeds on retry, `failedSteps` is still 1 and the original error is
still in `context.errors`. -/
theorem claim_C4_failure_recording :
    (∀ (e : Err) (i : Nat) (w : World),
      (Step.handleError e i w).ctx.metadata.failedSteps = w.ctx.metadata.failedSteps + 1 ∧
      (Step.handleError e i w).ctx.errors = w.ctx.errors ++ [e] ∧
      (Step.handleError e i w).ctx.metadata.completedSteps =
        w.ctx.metadata.completedSteps) ∧
    (∀ (beh : Nat → Except Err JVal) (i r : Nat) (w : World),
      ((ErrorHandler.executeRetry beh i r w).1).ctx = w.ctx) ∧
    ((runWorkflow cfgRetry2FbOn stepsAFlaky).1.ctx.metadata.failedSteps = 1 ∧
      netErr ∈ (runWorkflow cfgRetry2FbOn stepsAFlaky).1.ctx.errors) := by
  refine ⟨?_, ?_, by decide, by decide⟩
  · intro e i w
    refine ⟨?_, ?_, ?_⟩ <;> simp [Step.handleError, tick, snap]
  · intro beh i r w
    exact (executeRetry_world beh i r w).1

/-! ### Claim C1 — exhausted retries escape execute() -/

/-- C1 counterexample: with `fallbackEnabled = true` and `maxRetries = 1`,
a step that always fails with a retryable network error makes `execute()`
itself raise a wrapped workflow error after retries exhaust, and no
fallback side effect is recorded — contradicting "a per-step failure never
escapes execute() unless fallbackEnabled == false" and "that same failure
then receives fallback handling". -/
theorem claim_C1_counterexample :
    (runWorkflow cfgRetry1FbOn stepsBFails).2 =
      .error { message := "Unexpected workflow error: network down", step := "WORKFLOW" } ∧
    WorkflowContext.getData "B_fallback"
      (runWorkflow cfgRetry1FbOn stepsBFails).1.ctx = none :=
  ⟨by rfl, by rfl⟩

/-! ### Claim C2 — abort policy -/

/-- C2 counterexample: with `fallbackEnabled = false`, a step ending FAILED
after exhausted retries does stop the loop (step C is never invoked), but
the raised error is the wrapped "Unexpected workflow error" naming
"WORKFLOW", not the failing step "B". -/
theorem claim_C2_counterexample :
    (runWorkflow cfgRetry1FbOff stepsBFails).2 =
      .error { message := "Unexpected workflow error: network down", step := "WORKFLOW" } ∧
    ({ message := "Unexpected workflow error: network down", step := "WORKFLOW" } :
        WorkflowError).step ≠ "B" ∧
    strIncludes "Unexpected workflow error: network down" "B" = false ∧
    (∃ st, getA 1 (runWorkflow cfgRetry1FbOff stepsBFails).1.stepStates = some st ∧
      st.status = StepStatus.FAILED) ∧
    getA 2 (runWorkflow cfgRetry1FbOff stepsBFails).1.invocations = none :=
  ⟨by rfl, by decide, by decide, ⟨_, rfl, by rfl⟩, by rfl⟩

/-! ### Claim C3 — retry success leaves status FAILED -/

/-- C3 counterexample: `maxRetries = 2`, `fallbackEnabled = false`, step A
fails once with a retryable network error and succeeds on the retry: its
`execute` runs exactly 2 times, yet `execute()` raises the abort error
naming A and A's terminal status is FAILED, not COMPLETED. -/
theorem claim_C3_counterexample :
    getA 0 (runWorkflow cfgRetry2FbOff stepsAFlaky).1.invocations = some 2 ∧
    (runWorkflow cfgRetry2FbOff stepsAFlaky).2 =
      .error { message := "Workflow failed at step: A", step := "A" } ∧
    (∃ st, getA 0 (runWorkflow cfgRetry2FbOff stepsAFlaky).1.stepStates = some st ∧
      st.status = StepStatus.FAILED) :=
  ⟨by rfl, by rfl, ⟨_, rfl, by rfl⟩⟩


lemma executeRetry_inv (beh : Nat → Except Err JVal) (i : Nat) :
    ∀ (r : Nat) (w : World) (j : Nat), j ≠ i →
      getA j ((ErrorHandler.executeRetry beh i r w).1).invocations =
        getA j w.invocations := by
  intro r
  induction r with
  | zero => intro w j hj; rfl
  | succ r ih =>
      intro w j hj
      simp only [ErrorHandler.executeRetry]
      cases hb : beh ((bumpInv i w).1) with
      | ok v =>
          simp only [hb]
          show getA j (bumpInv i w).2.invocations = getA j w.invocations
          simp [bumpInv, getA_setA_ne hj]
      | error e =>
          simp only [hb]
          by_cases hr : r = 0
          · subst hr
            simp only [if_pos rfl]
            show getA j (bumpInv i w).2.invocations = getA j w.invocations
            simp [bumpInv, getA_setA_ne hj]
          · simp only [if_neg hr]
            rw [ih (snap (bumpInv i w).2) j hj]
            show getA j (bumpInv i w).2.invocations = getA j w.invocations
            simp [bumpInv, getA_setA_ne hj]

/-- C1 (amended): for every step failure classified retryable (with
maxRetries > 0) whose retries all fail, the last retry error is re-raised
out of the ErrorHandler into `execute()`'s catch handler, which wraps it
as "Unexpected workflow error: ..." and throws it; the failure receives no
fallback handling (no `<step>_fallback` key is written) and it escapes
`execute()` regardless of `fallbackEnabled`; later steps never run. -/
theorem claim_C1_amended (config : WorkflowConfig) (e : Err) (a c : JVal)
    (h : ErrorHandler.shouldRetry config.errorHandling (ErrorHandler.classifyError e) = true) :
    (runWorkflow config [okStep "A" a, failStep "B" e, okStep "C" c]).2 =
      .error { message := "Unexpected workflow error: " ++ e.message, step := "WORKFLOW" } ∧
    WorkflowContext.getData "B_fallback"
      (runWorkflow config [okStep "A" a, failStep "B" e, okStep "C" c]).1.ctx = none ∧
    getA 2 (runWorkflow config [okStep "A" a, failStep "B" e, okStep "C" c]).1.invocations
      = none := by
  obtain ⟨wid, nm, ⟨mr, strat, fb⟩⟩ := config
  have hmr : 0 < mr := by
    by_contra hc
    have h0 : mr = 0 := by omega
    subst h0
    simp [ErrorHandler.shouldRetry] at h
  simp [runWorkflow, WorkflowOrchestrator.initWorld, WorkflowOrchestrator.addSteps,
    WorkflowOrchestrator.emptyWorld, WorkflowOrchestrator.addStep, List.foldl,
    WorkflowContext.init, WorkflowOrchestrator.execute, WorkflowOrchestrator.startRun,
      WorkflowOrchestrator.finishRun, WorkflowOrchestrator.validateWorkflow,
    WorkflowOrchestrator.execLoop, WorkflowOrchestrator.executeStep, tick, snap, bumpInv,
    Step.handleError, ErrorHandler.handleError, okStep, failStep, getA, setA, h,
    StepState.initial]
  rw [executeRetry_constFail e 1 mr hmr]
  simp [WorkflowContext.getData, getA]
  constructor
  · rw [(executeRetry_world (fun _ => Except.error e) 1 mr _).1]
    rfl
  · rw [executeRetry_inv (fun _ => Except.error e) 1 mr _ 2 (by decide)]
    rfl

lemma executeFallback_stepStates (info : ErrorInfo) (s : String) (w : World) :
    (ErrorHandler.executeFallback info s w).stepStates = w.stepStates := by
  cases info with
  | mk t sv r st => cases t <;> simp [ErrorHandler.executeFallback, snap]

lemma executeFallback_invocations (info : ErrorInfo) (s : String) (w : World) :
    (ErrorHandler.executeFallback info s w).invocations = w.invocations := by
  cases info with
  | mk t sv r st => cases t <;> simp [ErrorHandler.executeFallback, snap]

lemma executeFallback_metadata (info : ErrorInfo) (s : String) (w : World) :
    (ErrorHandler.executeFallback info s w).ctx.metadata = w.ctx.metadata := by
  cases info with
  | mk t sv r st => cases t <;> simp [ErrorHandler.executeFallback, snap]

lemma executeFallback_trace (info : ErrorInfo) (s : String) (w : World) :
    (ErrorHandler.executeFallback info s w).trace =
      w.trace ++ [(ErrorHandler.executeFallback info s w).ctx] := by
  cases info with
  | mk t sv r st => cases t <;> simp [ErrorHandler.executeFallback, snap]

/-- C2 (amended): with `fallbackEnabled = false`, a step that ends FAILED
stops the loop immediately — no later step's `execute` is ever invoked —
and `execute()` raises a workflow-level error; that error names the
failing step exactly when the step's failure handling returned normally
(the non-retry path), whereas when retries were attempted and exhausted
the escaping retry error is wrapped as an "Unexpected workflow error"
naming "WORKFLOW" instead of the failing step. -/
theorem claim_C2_amended (config : WorkflowConfig) (e : Err) (a c : JVal)
    (hfb : config.errorHandling.fallbackEnabled = false) :
    getA 2 (runWorkflow config [okStep "A" a, failStep "B" e, okStep "C" c]).1.invocations
      = none ∧
    (∃ st, getA 1 (runWorkflow config
        [okStep "A" a, failStep "B" e, okStep "C" c]).1.stepStates = some st ∧
      st.status = StepStatus.FAILED) ∧
    (ErrorHandler.shouldRetry config.errorHandling (ErrorHandler.classifyError e) = false →
      (runWorkflow config [okStep "A" a, failStep "B" e, okStep "C" c]).2 =
        .error { message := "Workflow failed at step: B", step := "B" }) ∧
    (ErrorHandler.shouldRetry config.errorHandling (ErrorHandler.classifyError e) = true →
      (runWorkflow config [okStep "A" a, failStep "B" e, okStep "C" c]).2 =
        .error { message := "Unexpected workflow error: " ++ e.message, step := "WORKFLOW" }) := by
  obtain ⟨wid, nm, ⟨mr, strat, fb⟩⟩ := config
  simp only at hfb
  subst hfb
  by_cases hsr : ErrorHandler.shouldRetry ⟨mr, strat, false⟩ (ErrorHandler.classifyError e)
      = true
  · have hmr : 0 < mr := by
      by_contra hc
      have h0 : mr = 0 := by omega
      subst h0
      simp [ErrorHandler.shouldRetry] at hsr
    simp [runWorkflow, WorkflowOrchestrator.initWorld, WorkflowOrchestrator.addSteps,
      WorkflowOrchestrator.emptyWorld, WorkflowOrchestrator.addStep, List.foldl,
      WorkflowContext.init, WorkflowOrchestrator.execute, WorkflowOrchestrator.startRun,
      WorkflowOrchestrator.finishRun, WorkflowOrchestrator.validateWorkflow,
      WorkflowOrchestrator.execLoop, WorkflowOrchestrator.executeStep, tick, snap, bumpInv,
      Step.handleError, ErrorHandler.handleError, okStep, failStep, getA, setA, hsr,
      StepState.initial]
    rw [executeRetry_constFail e 1 mr hmr]
    simp
    constructor
    · rw [executeRetry_inv (fun _ => Except.error e) 1 mr _ 2 (by decide)]
      rfl
    · rw [(executeRetry_world (fun _ => Except.error e) 1 mr _).2.1]
      exact ⟨_, rfl, rfl⟩
  · have hsr2 : ErrorHandler.shouldRetry ⟨mr, strat, false⟩ (ErrorHandler.classifyError e)
        = false := by
      exact Bool.not_eq_true _ |>.mp hsr
    simp [runWorkflow, WorkflowOrchestrator.initWorld, WorkflowOrchestrator.addSteps,
      WorkflowOrchestrator.emptyWorld, WorkflowOrchestrator.addStep, List.foldl,
      WorkflowContext.init, WorkflowOrchestrator.execute, WorkflowOrchestrator.startRun,
      WorkflowOrchestrator.finishRun, WorkflowOrchestrator.validateWorkflow,
      WorkflowOrchestrator.execLoop, WorkflowOrchestrator.executeStep, tick, snap, bumpInv,
      Step.handleError, ErrorHandler.handleError, okStep, failStep, getA, setA, hsr2,
      StepState.initial, executeFallback_stepStates, executeFallback_invocations]

/-- C3 (amended): with `maxRetries = 2`, a step that fails once with a
retryable, non-HIGH-severity error and succeeds on the next invocation is
executed exactly 2 times (1 initial + 1 retry), but its terminal status
remains FAILED — the retry path never resets `step.status` — so
`execute()` returns the report without raising only when
`fallbackEnabled = true`; with `fallbackEnabled = false` the abort error
naming the step is raised even though the retry succeeded. -/
theorem claim_C3_amended (config : WorkflowConfig) (e : Err) (a b c : JVal)
    (hretry : ErrorHandler.shouldRetry config.errorHandling (ErrorHandler.classifyError e)
      = true)
    (hmr : config.errorHandling.maxRetries = 2) :
    getA 0 (runWorkflow config
      [flakyStep "A" e a, okStep "B" b, okStep "C" c]).1.invocations = some 2 ∧
    (∃ st, getA 0 (runWorkflow config
        [flakyStep "A" e a, okStep "B" b, okStep "C" c]).1.stepStates = some st ∧
      st.status = StepStatus.FAILED) ∧
    (config.errorHandling.fallbackEnabled = true →
      ∃ rep, (runWorkflow config
        [flakyStep "A" e a, okStep "B" b, okStep "C" c]).2 = .ok rep) ∧
    (config.errorHandling.fallbackEnabled = false →
      (runWorkflow config [flakyStep "A" e a, okStep "B" b, okStep "C" c]).2 =
        .error { message := "Workflow failed at step: A", step := "A" }) := by
  obtain ⟨wid, nm, ⟨mr, strat, fb⟩⟩ := config
  simp only at hretry hmr
  subst hmr
  cases fb with
  | false =>
      simp [runWorkflow, WorkflowOrchestrator.initWorld, WorkflowOrchestrator.addSteps,
        WorkflowOrchestrator.emptyWorld, WorkflowOrchestrator.addStep, List.foldl,
        WorkflowContext.init, WorkflowOrchestrator.execute, WorkflowOrchestrator.startRun,
        WorkflowOrchestrator.finishRun, WorkflowOrchestrator.validateWorkflow, WorkflowOrchestrator.execLoop,
        WorkflowOrchestrator.executeStep, tick, snap, bumpInv, Step.handleError,
        ErrorHandler.handleError, ErrorHandler.executeRetry, okStep, failStep, flakyStep,
        getA, setA, hretry, StepState.initial]
  | true =>
      simp [runWorkflow, WorkflowOrchestrator.initWorld, WorkflowOrchestrator.addSteps,
        WorkflowOrchestrator.emptyWorld, WorkflowOrchestrator.addStep, List.foldl,
        WorkflowContext.init, WorkflowOrchestrator.execute, WorkflowOrchestrator.startRun,
        WorkflowOrchestrator.finishRun, WorkflowOrchestrator.validateWorkflow, WorkflowOrchestrator.execLoop,
        WorkflowOrchestrator.executeStep, tick, snap, bumpInv, Step.handleError,
        ErrorHandler.handleError, ErrorHandler.executeRetry, okStep, failStep, flakyStep,
        getA, setA, hretry, StepState.initial, WorkflowOrchestrator.generateExecutionReport]

/-- C1 amended witness: concrete instance with maxRetries 1, fallback
enabled, and step B always failing with a network error. -/
theorem claim_C1_amended_witness :
    (runWorkflow cfgRetry1FbOn
        [okStep "A" (.num 1), failStep "B" netErr, okStep "C" (.num 3)]).2 =
      .error { message := "Unexpected workflow error: " ++ netErr.message
               step := "WORKFLOW" } ∧
    WorkflowContext.getData "B_fallback"
      (runWorkflow cfgRetry1FbOn
        [okStep "A" (.num 1), failStep "B" netErr, okStep "C" (.num 3)]).1.ctx = none ∧
    getA 2 (runWorkflow cfgRetry1FbOn
        [okStep "A" (.num 1), failStep "B" netErr, okStep "C" (.num 3)]).1.invocations
      = none :=
  claim_C1_amended cfgRetry1FbOn netErr (.num 1) (.num 3) (by decide)

/-- C2 amended witness: concrete instance with maxRetries 1, fallback
disabled, and step B always failing with a network error. -/
theorem claim_C2_amended_witness :
    getA 2 (runWorkflow cfgRetry1FbOff
        [okStep "A" (.num 1), failStep "B" netErr, okStep "C" (.num 3)]).1.invocations
      = none ∧
    (∃ st, getA 1 (runWorkflow cfgRetry1FbOff
        [okStep "A" (.num 1), failStep "B" netErr, okStep "C" (.num 3)]).1.stepStates
        = some st ∧
      st.status = StepStatus.FAILED) ∧
    (ErrorHandler.shouldRetry cfgRetry1FbOff.errorHandling
        (ErrorHandler.classifyError netErr) = false →
      (runWorkflow cfgRetry1FbOff
          [okStep "A" (.num 1), failStep "B" netErr, okStep "C" (.num 3)]).2 =
        .error { message := "Workflow failed at step: B", step := "B" }) ∧
    (ErrorHandler.shouldRetry cfgRetry1FbOff.errorHandling
        (ErrorHandler.classifyError netErr) = true →
      (runWorkflow cfgRetry1FbOff
          [okStep "A" (.num 1), failStep "B" netErr, okStep "C" (.num 3)]).2 =
        .error { message := "Unexpected workflow error: " ++ netErr.message
                 step := "WORKFLOW" }) :=
  claim_C2_amended cfgRetry1FbOff netErr (.num 1) (.num 3) (by decide)

/-- C3 amended witness: concrete instance with maxRetries 2, fallback
enabled, and step A failing once with a network error then succeeding. -/
theorem claim_C3_amended_witness :
    getA 0 (runWorkflow cfgRetry2FbOn
        [flakyStep "A" netErr (.num 1), okStep "B" (.num 2), okStep "C" (.num 3)]).1.invocations
      = some 2 ∧
    (∃ st, getA 0 (runWorkflow cfgRetry2FbOn
        [flakyStep "A" netErr (.num 1), okStep "B" (.num 2), okStep "C" (.num 3)]).1.stepStates
        = some st ∧
      st.status = StepStatus.FAILED) ∧
    (cfgRetry2FbOn.errorHandling.fallbackEnabled = true →
      ∃ rep, (runWorkflow cfgRetry2FbOn
        [flakyStep "A" netErr (.num 1), okStep "B" (.num 2), okStep "C" (.num 3)]).2 =
          .ok rep) ∧
    (cfgRetry2FbOn.errorHandling.fallbackEnabled = false →
      (runWorkflow cfgRetry2FbOn
          [flakyStep "A" netErr (.num 1), okStep "B" (.num 2), okStep "C" (.num 3)]).2 =
        .error { message := "Workflow failed at step: A", step := "A" }) :=
  claim_C3_amended cfgRetry2FbOn netErr (.num 1) (.num 2) (.num 3) (by decide) (by decide)


lemma handleError_spec (e : Err) (i : Nat) (w : World) :
    (Step.handleError e i w).ctx.metadata.totalSteps = w.ctx.metadata.totalSteps ∧
    (Step.handleError e i w).ctx.metadata.completedSteps = w.ctx.metadata.completedSteps ∧
    (Step.handleError e i w).ctx.metadata.failedSteps = w.ctx.metadata.failedSteps + 1 ∧
    (Step.handleError e i w).ctx.metadata.endTime = w.ctx.metadata.endTime ∧
    (Step.handleError e i w).trace = w.trace ++ [(Step.handleError e i w).ctx] :=
  ⟨rfl, rfl, rfl, rfl, rfl⟩

lemma ehHandleError_meta (config : ErrorHandlingConfig) (s : StepM) (i : Nat) (e : Err)
    (w : World) :
    ((ErrorHandler.handleError config s i e w).1).ctx.metadata = w.ctx.metadata ∧
    (∀ c ∈ ((ErrorHandler.handleError config s i e w).1).trace,
      c ∈ w.trace ∨ c.metadata = w.ctx.metadata) := by
  unfold ErrorHandler.handleError
  by_cases hsr : ErrorHandler.shouldRetry config (ErrorHandler.classifyError e) = true
  · simp only [hsr, if_pos]
    obtain ⟨h1, _, _, h4⟩ :=
      executeRetry_world s.behavior i config.maxRetries w
    refine ⟨by rw [h1], ?_⟩
    intro c hc
    rcases h4 c hc with hc' | hc'
    · exact Or.inl hc'
    · exact Or.inr (by rw [hc'])
  · simp only [Bool.not_eq_true] at hsr
    simp only [hsr, Bool.false_eq_true, if_false]
    refine ⟨executeFallback_metadata _ _ _, ?_⟩
    intro c hc
    rw [executeFallback_trace] at hc
    rcases List.mem_append.mp hc with hc' | hc'
    · exact Or.inl hc'
    · have hceq := List.mem_singleton.mp hc'
      subst hceq
      exact Or.inr (executeFallback_metadata _ _ _)

lemma executeStep_meta (config : ErrorHandlingConfig) (i : Nat) (s : StepM) (w : World) :
    ((WorkflowOrchestrator.executeStep config i s w).1).ctx.metadata.totalSteps =
      w.ctx.metadata.totalSteps ∧
    ((WorkflowOrchestrator.executeStep config i s w).1).ctx.metadata.completedSteps +
        ((WorkflowOrchestrator.executeStep config i s w).1).ctx.metadata.failedSteps ≤
      w.ctx.metadata.completedSteps + w.ctx.metadata.failedSteps + 1 ∧
    ((WorkflowOrchestrator.executeStep config i s w).1).ctx.metadata.endTime =
      w.ctx.metadata.endTime ∧
    (∀ c ∈ ((WorkflowOrchestrator.executeStep config i s w).1).trace,
      c ∈ w.trace ∨
        (c.metadata.totalSteps = w.ctx.metadata.totalSteps ∧
         c.metadata.completedSteps + c.metadata.failedSteps ≤
           w.ctx.metadata.completedSteps + w.ctx.metadata.failedSteps + 1 ∧
         c.metadata.endTime = w.ctx.metadata.endTime)) := by
  simp only [WorkflowOrchestrator.executeStep]
  split
  · rename_i v hb
    refine ⟨rfl, ?_, rfl, ?_⟩
    · simp only [snap, tick, bumpInv]
      omega
    · intro cx hc
      simp [snap, tick, bumpInv] at hc
      rcases hc with hc | hc | hc
      · exact Or.inl hc
      · subst hc
        refine Or.inr ⟨rfl, ?_, rfl⟩
        simp only [snap, tick, bumpInv]
        omega
      · subst hc
        refine Or.inr ⟨rfl, ?_, rfl⟩
        simp only [snap, tick, bumpInv]
        omega
  · rename_i e hb
    obtain ⟨hm, htr⟩ := ehHandleError_meta config s i e _
    refine ⟨?_, ?_, ?_, ?_⟩
    · rw [hm]
      rfl
    · rw [hm]
      simp only [Step.handleError, tick, snap, bumpInv]
      omega
    · rw [hm]
      rfl
    · intro cx hc
      rcases htr cx hc with hc' | hc'
      · simp [Step.handleError, tick, snap, bumpInv] at hc'
        rcases hc' with hc2 | hc2 | hc2 | hc2
        · exact Or.inl hc2
        · subst hc2
          refine Or.inr ⟨rfl, ?_, rfl⟩
          simp only [snap, tick, bumpInv]
          omega
        · subst hc2
          refine Or.inr ⟨rfl, ?_, rfl⟩
          simp only [snap, tick, bumpInv]
          omega
        · subst hc2
          refine Or.inr ⟨rfl, ?_, rfl⟩
          simp only [snap, tick, bumpInv]
          omega
      · refine Or.inr ⟨?_, ?_, ?_⟩
        · rw [hc']
          rfl
        · rw [hc']
          simp only [Step.handleError, tick, snap, bumpInv]
          omega
        · rw [hc']
          rfl

lemma execLoop_meta (config : ErrorHandlingConfig) :
    ∀ (steps : List StepM) (i : Nat) (w : World),
      w.ctx.metadata.completedSteps + w.ctx.metadata.failedSteps + steps.length ≤
        w.ctx.metadata.totalSteps →
      ((WorkflowOrchestrator.execLoop config i steps w).1).ctx.metadata.totalSteps =
        w.ctx.metadata.totalSteps ∧
      ((WorkflowOrchestrator.execLoop config i steps w).1).ctx.metadata.completedSteps +
          ((WorkflowOrchestrator.execLoop config i steps w).1).ctx.metadata.failedSteps ≤
        w.ctx.metadata.totalSteps ∧
      ((WorkflowOrchestrator.execLoop config i steps w).1).ctx.metadata.endTime =
        w.ctx.metadata.endTime ∧
      (∀ c ∈ ((WorkflowOrchestrator.execLoop config i steps w).1).trace,
        c ∈ w.trace ∨
          (c.metadata.completedSteps + c.metadata.failedSteps ≤ c.metadata.totalSteps ∧
           c.metadata.endTime = w.ctx.metadata.endTime)) := by
  intro steps
  induction steps with
  | nil =>
      intro i w h
      simp only [List.length_nil] at h
      refine ⟨rfl, ?_, rfl, fun c hc => Or.inl hc⟩
      show w.ctx.metadata.completedSteps + w.ctx.metadata.failedSteps ≤
        w.ctx.metadata.totalSteps
      omega
  | cons s rest ih =>
      intro i w h
      simp only [List.length_cons] at h
      obtain ⟨e1, e2, e3, e4⟩ := executeStep_meta config i s w
      simp only [WorkflowOrchestrator.execLoop]
      split
      · rename_i e heq
        dsimp only
        refine ⟨e1, by omega, e3, ?_⟩
        intro c hc
        rcases e4 c hc with hc' | hc'
        · exact Or.inl hc'
        · exact Or.inr ⟨by omega, hc'.2.2⟩
      · split
        · dsimp only
          refine ⟨e1, by omega, e3, ?_⟩
          intro c hc
          rcases e4 c hc with hc' | hc'
          · exact Or.inl hc'
          · exact Or.inr ⟨by omega, hc'.2.2⟩
        · have h' : ((WorkflowOrchestrator.executeStep config i s w).1).ctx.metadata.completedSteps +
              ((WorkflowOrchestrator.executeStep config i s w).1).ctx.metadata.failedSteps +
              rest.length ≤
              ((WorkflowOrchestrator.executeStep config i s w).1).ctx.metadata.totalSteps := by
            rw [e1]
            omega
          obtain ⟨f1, f2, f3, f4⟩ := ih (i + 1) _ h'
          refine ⟨by rw [f1, e1], by rw [e1] at f2; exact f2, by rw [f3, e3], ?_⟩
          intro c hc
          rcases f4 c hc with hc' | hc'
          · rcases e4 c hc' with hc2 | hc2
            · exact Or.inl hc2
            · exact Or.inr ⟨by omega, hc2.2.2⟩
          · exact Or.inr ⟨hc'.1, by rw [hc'.2, e3]⟩


lemma startRun_meta (w : World) :
    (WorkflowOrchestrator.startRun w).ctx.metadata.completedSteps =
      w.ctx.metadata.completedSteps ∧
    (WorkflowOrchestrator.startRun w).ctx.metadata.failedSteps =
      w.ctx.metadata.failedSteps ∧
    (WorkflowOrchestrator.startRun w).ctx.metadata.endTime = w.ctx.metadata.endTime ∧
    (WorkflowOrchestrator.startRun w).ctx.metadata.totalSteps =
      w.ctx.metadata.totalSteps ∧
    (WorkflowOrchestrator.startRun w).trace =
      w.trace ++ [(WorkflowOrchestrator.startRun w).ctx] :=
  ⟨rfl, rfl, rfl, rfl, rfl⟩

lemma finishRun_meta (w : World) :
    (WorkflowOrchestrator.finishRun w).ctx.metadata.completedSteps =
      w.ctx.metadata.completedSteps ∧
    (WorkflowOrchestrator.finishRun w).ctx.metadata.failedSteps =
      w.ctx.metadata.failedSteps ∧
    (WorkflowOrchestrator.finishRun w).ctx.metadata.totalSteps =
      w.ctx.metadata.totalSteps ∧
    (WorkflowOrchestrator.finishRun w).trace =
      w.trace ++ [(WorkflowOrchestrator.finishRun w).ctx] :=
  ⟨rfl, rfl, rfl, rfl⟩

lemma execute_trace (config : WorkflowConfig) (steps : List StepM) (w : World)
    (hc : w.ctx.metadata.completedSteps = 0) (hf : w.ctx.metadata.failedSteps = 0)
    (he : w.ctx.metadata.endTime = none)
    (ht : w.ctx.metadata.totalSteps = steps.length)
    (htr : ∀ c ∈ w.trace,
      (c.metadata.completedSteps + c.metadata.failedSteps ≤ c.metadata.totalSteps) ∧
      c.metadata.endTime = none) :
    (∀ c ∈ ((WorkflowOrchestrator.execute config steps w).1).trace,
      c.metadata.completedSteps + c.metadata.failedSteps ≤ c.metadata.totalSteps) ∧
    (∀ c ∈ ((WorkflowOrchestrator.execute config steps w).1).trace.dropLast,
      c.metadata.endTime = none) := by
  have hs := startRun_meta w
  have hyp : (WorkflowOrchestrator.startRun w).ctx.metadata.completedSteps +
      (WorkflowOrchestrator.startRun w).ctx.metadata.failedSteps + steps.length ≤
      (WorkflowOrchestrator.startRun w).ctx.metadata.totalSteps := by
    rw [hs.1, hs.2.1, hs.2.2.2.1, hc, hf, ht]
    omega
  have hmem : ∀ c ∈ (WorkflowOrchestrator.startRun w).trace,
      (c.metadata.completedSteps + c.metadata.failedSteps ≤ c.metadata.totalSteps) ∧
      c.metadata.endTime = none := by
    intro c hcm
    rw [hs.2.2.2.2] at hcm
    rcases List.mem_append.mp hcm with hcm | hcm
    · exact htr c hcm
    · have hce := List.mem_singleton.mp hcm
      subst hce
      refine ⟨?_, ?_⟩
      · rw [hs.1, hs.2.1, hc, hf]
        omega
      · rw [hs.2.2.1, he]
  simp only [WorkflowOrchestrator.execute]
  split
  · -- validation failure
    obtain ⟨k1, k2, k3, k4⟩ := finishRun_meta (WorkflowOrchestrator.startRun w)
    constructor
    · intro c hcm
      simp only at hcm
      rw [k4] at hcm
      rcases List.mem_append.mp hcm with hcm | hcm
      · exact (hmem c hcm).1
      · have hce := List.mem_singleton.mp hcm
        subst hce
        rw [k1, k2, k3, hs.1, hs.2.1, hs.2.2.2.1, hc, hf]
        omega
    · intro c hcm
      simp only at hcm
      rw [k4, List.dropLast_concat] at hcm
      exact (hmem c hcm).2
  · -- loop branch
    obtain ⟨g1, g2, g3, g4⟩ := execLoop_meta config.errorHandling steps 0
      (WorkflowOrchestrator.startRun w) hyp
    obtain ⟨k1, k2, k3, k4⟩ := finishRun_meta
      (WorkflowOrchestrator.execLoop config.errorHandling 0 steps
        (WorkflowOrchestrator.startRun w)).1
    have hmain : (∀ c ∈ (WorkflowOrchestrator.finishRun
          (WorkflowOrchestrator.execLoop config.errorHandling 0 steps
            (WorkflowOrchestrator.startRun w)).1).trace,
        c.metadata.completedSteps + c.metadata.failedSteps ≤ c.metadata.totalSteps) ∧
        (∀ c ∈ (WorkflowOrchestrator.finishRun
          (WorkflowOrchestrator.execLoop config.errorHandling 0 steps
            (WorkflowOrchestrator.startRun w)).1).trace.dropLast,
        c.metadata.endTime = none) := by
      constructor
      · intro c hcm
        rw [k4] at hcm
        rcases List.mem_append.mp hcm with hcm | hcm
        · rcases g4 c hcm with hcm2 | hcm2
          · exact (hmem c hcm2).1
          · exact hcm2.1
        · have hce := List.mem_singleton.mp hcm
          subst hce
          rw [k1, k2, k3, g1]
          exact g2
      · intro c hcm
        rw [k4, List.dropLast_concat] at hcm
        rcases g4 c hcm with hcm2 | hcm2
        · exact (hmem c hcm2).2
        · rw [hcm2.2, hs.2.2.1, he]
    split
    · exact hmain
    · exact hmain
    · split
      · exact hmain
      · exact hmain

/-- C8: at every observation point of a run — the context snapshots taken
after each state-changing operation of addStep, the Orchestrator, the
ErrorHandler and the step failure recording — the metadata satisfies
`completedSteps + failedSteps ≤ totalSteps`; and `endTime` is null at every
observation point except possibly the final one, i.e. it is set only after
the run loop has terminated (normally, by abort, or by validation failure). -/
theorem claim_C8_metadata_invariant (config : WorkflowConfig) (steps : List StepM) :
    (∀ c ∈ (runWorkflow config steps).1.trace,
      c.metadata.completedSteps + c.metadata.failedSteps ≤ c.metadata.totalSteps) ∧
    (∀ c ∈ (runWorkflow config steps).1.trace.dropLast,
      c.metadata.endTime = none) := by
  obtain ⟨a1, a2, a3, a4, a5, a6, a7, a8, a9, a10, a11⟩ :=
    addSteps_spec steps (WorkflowOrchestrator.emptyWorld config.workflowId) rfl
  refine execute_trace config steps
    (WorkflowOrchestrator.initWorld config.workflowId steps) a3 a4 a2 ?_ ?_
  · simpa [WorkflowOrchestrator.initWorld, WorkflowOrchestrator.emptyWorld] using a5
  · intro c hcm
    rcases a11 c hcm with hcm' | hcm'
    · rw [show (WorkflowOrchestrator.emptyWorld config.workflowId).trace = [] from rfl]
        at hcm'
      exact absurd hcm' (List.not_mem_nil c)
    · obtain ⟨hb1, hb2, hb3⟩ := hcm'
      refine ⟨?_, ?_⟩
      · rw [hb1, hb2]
        simp [WorkflowOrchestrator.emptyWorld, WorkflowContext.init]
      · exact hb3.trans rfl

/-- A context snapshot of the empty-pipeline run, used as the C8 witness. -/
def c8w : WorkflowContext :=
  { data := [], metadata := ⟨"w", some 0, none, 0, 0, 0⟩, stepOutputs := [], errors := [] }

/-- C8 witness: a concrete snapshot of a concrete run satisfies the
invariant and has no endTime (it is not the final snapshot). -/
theorem claim_C8_metadata_invariant_witness :
    (c8w.metadata.completedSteps + c8w.metadata.failedSteps ≤ c8w.metadata.totalSteps) ∧
    c8w.metadata.endTime = none :=
  ⟨(claim_C8_metadata_invariant cfgRetry1FbOn []).1 c8w (by decide),
   (claim_C8_metadata_invariant cfgRetry1FbOn []).2 c8w (by decide)⟩
